import Mathlib

/-!
Verification of the campaign dispatch engine of the `camp` repository.

The definitions below are a shallow embedding of the TypeScript sources:

* `src/backend/src/campaigns/dto/upload-campaign.dto.ts`
  (the `RateLimitingService` and the `CampaignContact` shape),
* `src/backend/src/campaigns/campaigns.service.ts` (`uploadCampaign`),
* `src/backend/src/campaigns/campaigns.processor.ts` (`handleSendMessage`).

Database reads and external collaborators (Prisma queries, the Bull queue,
axios calls, `Math.random()`, `Date.now()`) are modelled as explicit
parameters or environment records; database writes are modelled as pure
state updates or accumulated effect lists.  Machine numbers that the code
manipulates exactly (counts, ids) are `Nat`/`Int`; JavaScript floating
point delay arithmetic is modelled over `ℚ` (all quantities involved are
exact decimals, so no rounding behaviour is lost).
-/

namespace Camp

/-! ## Rate limiter (`RateLimitingService`, upload-campaign.dto.ts lines 14-170) -/

/-- `interface RateLimit { daily: number; hourly: number }`. -/
structure RateLimit where
  daily : Nat
  hourly : Nat
deriving DecidableEq, Repr

/-- `baseLimits.newLine = { daily: 300, hourly: 50 }` (lines < 7 days). -/
def newLineLimit : RateLimit := ⟨300, 50⟩

/-- `baseLimits.warmingUp = { daily: 450, hourly: 80 }` (7-30 days). -/
def warmingUpLimit : RateLimit := ⟨450, 80⟩

/-- `baseLimits.mature = { daily: 450, hourly: 80 }` (> 30 days). -/
def matureLimit : RateLimit := ⟨450, 80⟩

/-- `getLineAge(createdAt)`: `Math.floor((now - createdAt) / 86400000)`,
both instants in epoch milliseconds.  `Int.fdiv` is floor division, the
exact semantics of `Math.floor` of an exact real quotient. -/
def getLineAge (nowMs createdAtMs : Int) : Int :=
  Int.fdiv (nowMs - createdAtMs) 86400000

/-- `getLimit(lineAge)`: tier selection by line age in whole days. -/
def getLimit (lineAge : Int) : RateLimit :=
  if lineAge < 7 then newLineLimit
  else if lineAge < 30 then warmingUpLimit
  else matureLimit

/-- The slice of a `LinesStock` row that the rate limiter reads. -/
structure RLine where
  createdAtMs : Int
deriving Repr

/-- A failed Prisma read (anything the `catch` in `canSendMessage` would see). -/
structure DbErr where
  msg : String
deriving DecidableEq, Repr

/-- The pure comparison at the heart of `canSendMessage`
(`messagesToday < limit.daily && messagesLastHour < limit.hourly`). -/
def canSendCore (nowMs : Int) (line : RLine) (messagesToday messagesLastHour : Nat) : Bool :=
  let lineAge := getLineAge nowMs line.createdAtMs
  let limit := getLimit lineAge
  decide (messagesToday < limit.daily) && decide (messagesLastHour < limit.hourly)

/-- `RateLimitingService.canSendMessage(lineId)`.

The three awaited Prisma queries (`linesStock.findUnique` and the two
`conversation.count` calls) are modelled by their pre-determined outcomes.
The `try/catch` wrapping the whole body returns `true` on any error
(fail-open); a missing line returns `false` before the counts are read. -/
def canSendMessage (nowMs : Int)
    (findLine : Except DbErr (Option RLine))
    (countToday countLastHour : Except DbErr Nat) : Bool :=
  let body : Except DbErr Bool :=
    match findLine with
    | Except.error e => Except.error e
    | Except.ok none => Except.ok false
    | Except.ok (some line) =>
      match countToday with
      | Except.error e => Except.error e
      | Except.ok t =>
        match countLastHour with
        | Except.error e => Except.error e
        | Except.ok h => Except.ok (canSendCore nowMs line t h)
  match body with
  | Except.ok b => b
  | Except.error _ => true

/-- The record returned by `getRateLimitInfo`. -/
structure RateLimitInfo where
  lineAge : Int
  limit : RateLimit
  messagesToday : Nat
  messagesLastHour : Nat
  canSend : Bool
deriving DecidableEq, Repr

/-- `RateLimitingService.getRateLimitInfo(lineId)`: same computation as
`canSendMessage` but with no `try/catch`; a missing line throws
`BadRequestException('Linha não encontrada')`, and database errors
propagate to the caller. -/
def getRateLimitInfo (nowMs : Int)
    (findLine : Except DbErr (Option RLine))
    (countToday countLastHour : Except DbErr Nat) : Except String RateLimitInfo :=
  match findLine with
  | Except.error e => Except.error e.msg
  | Except.ok none => Except.error "Linha não encontrada"
  | Except.ok (some line) =>
    match countToday with
    | Except.error e => Except.error e.msg
    | Except.ok t =>
      match countLastHour with
      | Except.error e => Except.error e.msg
      | Except.ok h =>
        let lineAge := getLineAge nowMs line.createdAtMs
        let limit := getLimit lineAge
        Except.ok
          { lineAge := lineAge
            limit := limit
            messagesToday := t
            messagesLastHour := h
            canSend := decide (t < limit.daily) && decide (h < limit.hourly) }

/-! ## String primitives

JavaScript string primitives (`trim`, `startsWith`, `toLowerCase`) are
re-implemented over character lists so that every definition reduces in
the kernel. -/

/-- The opening brace character, `'\x7b'`. -/
def lbrace : Char := '\x7b'

/-- The closing brace character, `'\x7d'`. -/
def rbrace : Char := '\x7d'

/-- JavaScript `s.trim()`. -/
def jsTrim (s : String) : String :=
  String.mk (((s.toList.dropWhile Char.isWhitespace).reverse.dropWhile
    Char.isWhitespace).reverse)

/-- JavaScript `s.startsWith(pat)`. -/
def startsWithStr (s pat : String) : Bool :=
  pat.toList.isPrefixOf s.toList

/-- JavaScript `s.toLowerCase()` (ASCII range, which covers every key the
code compares). -/
def jsToLower (s : String) : String :=
  String.mk (s.toList.map Char.toLower)

/-! ## Phone normalizer -/

/-- Modelled from the spec: the Phone Normalizer (`cleanPhone` in
`phone-validation.service.ts`, whose source is not under `src/`) strips all
non-digit characters from its input (spec §4.1).  No claim under
verification depends on its exact behaviour. -/
def cleanPhone (s : String) : String :=
  String.mk (s.toList.filter Char.isDigit)

/-! ## Dispatch scheduler (`CampaignsService.uploadCampaign`, campaigns.service.ts lines 52-268) -/

/-- The slice of a `LinesStock` row read by `uploadCampaign`. -/
structure StockLine where
  id : Nat
  lineStatus : String
  segment : Nat
deriving DecidableEq, Repr

/-- The slice of the parent `Campaign` row read by `uploadCampaign`.
`contactSegment` is nullable in the schema, hence `Option`. -/
structure ParentCampaign where
  name : String
  contactSegment : Option Nat
  speed : String
  useTemplate : Bool
  templateId : Option Nat
  templateVariables : Option String
deriving Repr

/-- `CampaignContact` (upload-campaign.dto.ts lines 1-9).  Optional CSV
custom variables are an association list. -/
structure CampaignContact where
  name : String
  phone : String
  cpf : Option String := none
  contract : Option String := none
  message : Option String := none
  -- the source field is named `variables`, a reserved word here
  csvVariables : List (String × String) := []
deriving Repr, Inhabited

/-- JavaScript `a || b` on possibly-undefined strings: the empty string is
falsy, so it falls through to `b`; a missing value likewise. -/
def jsStrOr (a b : Option String) : Option String :=
  match a with
  | some s => if s = "" then b else some s
  | none => b

/-- The hard-coded fallback greetings (campaigns.service.ts lines 151-154),
used when the control panel has no configured greetings. -/
def fallbackGreetings : List String :=
  ["Olá, tudo bem?", "Oi, tudo certo?"]

/-- `HARDCODED_CONTENTS` (campaigns.service.ts lines 166-187): the pool of
randomized promo texts used when the campaign is not in template mode. -/
def hardcodedContents : List String :=
  [ "Bora forrar na nova plataforma! https://eae.bet/?r=nbjcdxwx indique seus amigos e ganhe recompensas!!",
    "Partiu forrar na nova plataforma! https://eae.bet/?r=nbjcdxwx indique geral e ganhe recompensas!!",
    "Bora aproveitar na nova plataforma! https://eae.bet/?r=nbjcdxwx indica teus amigos e pega recompensas!!",
    "Fechou! Bora forrar na nova plataforma — https://eae.bet/?r=nbjcdxwx indique amigos e ganhe recompensas!!",
    "Aí sim! Bora forrar na nova plataforma. https://eae.bet/?r=nbjcdxwx indique e ganhe recompensas!!",
    "Bora pra cima na nova plataforma! https://eae.bet/?r=nbjcdxwx convide amigos e ganhe recompensas!!",
    "Show! Bora forrar na plataforma nova: https://eae.bet/?r=nbjcdxwx pra indicar amigos e ganhar recompensas!!",
    "Então vamo! Nova plataforma no ar — https://eae.bet/?r=nbjcdxwx indique seus amigos e ganhe recompensas!!",
    "Boa! Bora forrar na nova plataforma. https://eae.bet/?r=nbjcdxwx chama os amigos e ganha recompensas!!",
    "Perfeito! Bora forrar: nova plataforma + https://eae.bet/?r=nbjcdxwx pra indicar amigos e ganhar recompensas!!",
    "Partiu! https://eae.bet/?r=nbjcdxwx da nova plataforma indique amigos e desbloqueie recompensas!!",
    "Bora garantir o nosso na nova plataforma! https://eae.bet/?r=nbjcdxwx indique amigos e ganhe recompensas!!",
    "Fechamento! Nova plataforma aqui — https://eae.bet/?r=nbjcdxwx indique seus amigos e ganhe recompensas!!",
    "Tamo junto! Bora forrar na nova plataforma. https://eae.bet/?r=nbjcdxwx convide amigos e receba recompensas!!",
    "Boa demais! Bora pra nova plataforma — https://eae.bet/?r=nbjcdxwx indique geral e ganhe recompensas!!",
    "Bora de plataforma nova! https://eae.bet/?r=nbjcdxwx indique teus amigos e ganhe recompensas!!",
    "Top! Bora forrar na nova plataforma. https://eae.bet/?r=nbjcdxwx indique amigos e acumule recompensas!!",
    "Aí sim! Partiu forrar na plataforma nova — https://eae.bet/?r=nbjcdxwx indique amigos e ganhe recompensas!!",
    "Excelente! https://eae.bet/?r=nbjcdxwx da nova plataforma: indique seus amigos e ganhe recompensas!!",
    "Demorou! Bora forrar na nova plataforma. https://eae.bet/?r=nbjcdxwx chama os amigos e garante recompensas!!" ]

/-- Greeting list selection (campaigns.service.ts lines 145-154):
configured greetings from the control panel if non-empty, else the
hard-coded fallback. -/
def greetingsOf (configuredGreetings : Option (List String)) : List String :=
  match configuredGreetings with
  | some gs => if gs.length > 0 then gs else fallbackGreetings
  | none => fallbackGreetings

/-- Content selection (campaigns.service.ts lines 161-190): the template
placeholder in template mode, else `HARDCODED_CONTENTS[draw]` where `draw`
models `Math.floor(Math.random() * HARDCODED_CONTENTS.length)`. -/
def chooseContent (finalUseTemplate : Bool) (draw : Nat) : String :=
  if finalUseTemplate then "__TEMPLATE_FLOW__"
  else hardcodedContents.getD draw ""

/-- Escaping of one character under `JSON.stringify` (only quote,
backslash and the common control characters can occur in the data at
hand). -/
def jsonEscapeChar (c : Char) : String :=
  if c = '"' then "\\\""
  else if c = '\\' then "\\\\"
  else if c = '\n' then "\\n"
  else if c = '\r' then "\\r"
  else if c = '\t' then "\\t"
  else String.mk [c]

/-- `JSON.stringify` of a string value. -/
def jsonStr (s : String) : String :=
  "\"" ++ String.join (s.toList.map jsonEscapeChar) ++ "\""

/-- `JSON.stringify` of an array of strings. -/
def jsonArr (xs : List String) : String :=
  "[" ++ String.intercalate "," (xs.map jsonStr) ++ "]"

/-- `JSON.stringify` of a string-to-string object. -/
def jsonObj (kvs : List (String × String)) : String :=
  "\x7b" ++ String.intercalate "," (kvs.map fun kv => jsonStr kv.1 ++ ":" ++ jsonStr kv.2) ++ "\x7d"

/-- `JSON.stringify({ greeting, content, csvVariables })`
(campaigns.service.ts lines 192-196). -/
def wrapperJson (greeting : List String) (content : String)
    (csvVariables : List (String × String)) : String :=
  "\x7b\"greeting\":" ++ jsonArr greeting ++
    ",\"content\":" ++ jsonStr content ++
    ",\"csvVariables\":" ++ jsonObj csvVariables ++ "\x7d"

/-- `contactMessage.trim().startsWith` applied to an opening brace:
equivalently, the first non-whitespace character is `'\x7b'`. -/
def trimStartsWithBrace (s : String) : Bool :=
  startsWithStr (jsTrim s) (String.mk [lbrace])

/-- Per-contact message resolution (campaigns.service.ts lines 138-197):
`contact.message || message`, then — unless the result is a truthy string
whose trimmed form starts with a brace — replace it with the synthesized
greeting-wrapper JSON. -/
def resolveContactMessage (contactMsg globalMsg : Option String)
    (configuredGreetings : Option (List String)) (finalUseTemplate : Bool)
    (contentDraw : Nat) (csvVariables : List (String × String)) : String :=
  let wrapped := wrapperJson (greetingsOf configuredGreetings)
    (chooseContent finalUseTemplate contentDraw) csvVariables
  match jsStrOr contactMsg globalMsg with
  | none => wrapped
  | some m => if trimStartsWithBrace m then m else wrapped

/-- `minDelayMinutes = 0.5` (30 seconds). -/
def minDelayMinutes : ℚ := 1 / 2

/-- `maxDelayMinutes = 2.5` (150 seconds). -/
def maxDelayMinutes : ℚ := 5 / 2

/-- One per-contact delay increment in milliseconds
(campaigns.service.ts lines 243-245): `r` models the `Math.random()` draw. -/
def stepDelayMs (r : ℚ) : ℚ :=
  (minDelayMinutes + r * (maxDelayMinutes - minDelayMinutes)) * 60 * 1000

/-- One long anti-ban pause in milliseconds (campaigns.service.ts lines
248-251): `5 + Math.random() * 10` minutes. -/
def longPauseMs (r : ℚ) : ℚ :=
  (5 + r * 10) * 60 * 1000

/-- `accumulatedDelayMs` at the start of loop iteration `i`, for a batch of
`n` contacts; `rd i` and `rp i` model the `Math.random()` draws of
iteration `i` for the per-contact delay and the long pause.  The long
pause fires after iteration `i` when `(i + 1) % 20 = 0` and `i` is not the
final index (campaigns.service.ts lines 109, 243-252). -/
def accDelayAt (n : Nat) (rd rp : Nat → ℚ) : Nat → ℚ
  | 0 => 0
  | i + 1 =>
    let base := accDelayAt n rd rp i + stepDelayMs (rd i)
    if (i + 1) % 20 = 0 ∧ i < n - 1 then base + longPauseMs (rp i) else base

/-- One persisted per-contact `Campaign` row (campaigns.service.ts lines
200-217). -/
structure CampaignRecord where
  name : String
  contactName : String
  contactPhone : String
  contactSegment : Option Nat
  lineReceptor : Nat
  speed : String
  response : Bool
  useTemplate : Bool
  templateId : Option Nat
  templateVariables : Option String
  message : String
  messageId : String
deriving Repr, Inhabited

/-- One job enqueued on the `campaigns` queue (campaigns.service.ts lines
220-241). -/
structure QueuedJob where
  contactName : String
  contactPhone : String
  contactSegment : Option Nat
  lineId : Nat
  message : String
  useTemplate : Bool
  templateId : Option Nat
  delayMs : ℚ
  attempts : Nat
  backoffType : String
  backoffDelayMs : Nat
deriving Repr, Inhabited

/-- One externally visible write performed by `uploadCampaign`. -/
inductive UploadEffect where
  | upsertContact (phone : String)
  | createRecord (r : CampaignRecord)
  | enqueue (j : QueuedJob)
deriving Repr

/-- The aggregate summary `uploadCampaign` returns. -/
structure UploadSummary where
  totalContacts : Nat
  lines : Nat
  estimatedDurationMs : ℚ
deriving Repr

/-- The environment `uploadCampaign` reads: every `LinesStock` row, the id
of the segment named `Padrão` (if that row exists), the configured control
panel greetings, per-iteration `Math.random()` draws (`rd` for the delay,
`rp` for the long pause, `rc` for the promo-content pick, already floored
to an index) and per-iteration `Date.now()` readings. -/
structure UploadEnv where
  allLines : List StockLine
  padraoSegmentId : Option Nat
  configuredGreetings : Option (List String)
  rd : Nat → ℚ
  rp : Nat → ℚ
  rc : Nat → Nat
  nowAt : Nat → Int

/-- The `where` filter of the first `linesStock.findMany`
(campaigns.service.ts lines 68-73): active lines, restricted to the
campaign's segment only when `campaign.contactSegment` is truthy
(JavaScript: both `null` and `0` are falsy). -/
def matchesSegmentFilter (contactSegment : Option Nat) (l : StockLine) : Bool :=
  match contactSegment with
  | some s => if s = 0 then true else l.segment == s
  | none => true

/-- Line pool resolution (campaigns.service.ts lines 67-92): active lines
of the campaign's segment; if none, the active lines of the `Padrão`
segment (when that segment row exists). -/
def resolveLinePool (env : UploadEnv) (contactSegment : Option Nat) : List Nat :=
  let segmentLines := (env.allLines.filter fun l =>
    l.lineStatus == "active" && matchesSegmentFilter contactSegment l).map (·.id)
  if segmentLines.length = 0 then
    match env.padraoSegmentId with
    | some segId =>
      (env.allLines.filter fun l =>
        l.lineStatus == "active" && l.segment == segId).map (·.id)
    | none => segmentLines
  else segmentLines

/-- The `Campaign` row persisted for contact `i` of the batch
(campaigns.service.ts lines 200-217). -/
def contactRecord (env : UploadEnv) (campaign : ParentCampaign) (pool : List Nat)
    (finalUseTemplate : Bool) (finalTemplateId : Option Nat)
    (globalMsg : Option String) (n : Nat) (i : Nat) (c : CampaignContact) :
    CampaignRecord :=
  { name := campaign.name
    contactName := c.name
    contactPhone := cleanPhone c.phone
    contactSegment := campaign.contactSegment
    lineReceptor := pool.getD (i % pool.length) 0
    speed := "slow"
    response := false
    useTemplate := finalUseTemplate
    templateId := finalTemplateId
    templateVariables := campaign.templateVariables
    message := resolveContactMessage c.message globalMsg
      env.configuredGreetings finalUseTemplate (env.rc i) c.csvVariables
    messageId :=
      "SCHEDULED:" ++ toString ((env.nowAt i : ℚ) + accDelayAt n env.rd env.rp i) }

/-- The job enqueued for contact `i` of the batch (campaigns.service.ts
lines 220-241). -/
def contactJob (env : UploadEnv) (campaign : ParentCampaign) (pool : List Nat)
    (finalUseTemplate : Bool) (finalTemplateId : Option Nat)
    (globalMsg : Option String) (n : Nat) (i : Nat) (c : CampaignContact) :
    QueuedJob :=
  { contactName := c.name
    contactPhone := cleanPhone c.phone
    contactSegment := campaign.contactSegment
    lineId := pool.getD (i % pool.length) 0
    message := resolveContactMessage c.message globalMsg
      env.configuredGreetings finalUseTemplate (env.rc i) c.csvVariables
    useTemplate := finalUseTemplate
    templateId := finalTemplateId
    delayMs := accDelayAt n env.rd env.rp i
    attempts := 3
    backoffType := "exponential"
    backoffDelayMs := 2000 }

/-- The three writes performed for contact `i` of the batch
(campaigns.service.ts lines 111-241). -/
def contactEffects (env : UploadEnv) (campaign : ParentCampaign) (pool : List Nat)
    (finalUseTemplate : Bool) (finalTemplateId : Option Nat)
    (globalMsg : Option String) (n : Nat) (i : Nat) (c : CampaignContact) :
    List UploadEffect :=
  [ UploadEffect.upsertContact (cleanPhone c.phone),
    UploadEffect.createRecord
      (contactRecord env campaign pool finalUseTemplate finalTemplateId globalMsg n i c),
    UploadEffect.enqueue
      (contactJob env campaign pool finalUseTemplate finalTemplateId globalMsg n i c) ]

/-- The `for` loop of `uploadCampaign`, processing contacts from index `i`
onward. -/
def uploadLoop (env : UploadEnv) (campaign : ParentCampaign) (pool : List Nat)
    (finalUseTemplate : Bool) (finalTemplateId : Option Nat)
    (globalMsg : Option String) (n : Nat) : Nat → List CampaignContact → List UploadEffect
  | _, [] => []
  | i, c :: rest =>
    contactEffects env campaign pool finalUseTemplate finalTemplateId globalMsg n i c ++
      uploadLoop env campaign pool finalUseTemplate finalTemplateId globalMsg n (i + 1) rest

/-- `CampaignsService.uploadCampaign` (campaigns.service.ts lines 52-268):
returns the writes it performed together with either the thrown error or
the aggregate summary.  `findCampaign` models the initial
`campaign.findUnique`. -/
def uploadCampaign (env : UploadEnv) (findCampaign : Option ParentCampaign)
    (contacts : List CampaignContact) (message : Option String)
    (useTemplate : Option Bool) (templateId : Option (Option Nat)) :
    List UploadEffect × Except String UploadSummary :=
  match findCampaign with
  | none => ([], Except.error "Campanha não encontrada")
  | some campaign =>
    let pool := resolveLinePool env campaign.contactSegment
    if pool.length = 0 then
      ([], Except.error "Nenhuma linha ativa disponível para disparo")
    else
      let finalUseTemplate := match useTemplate with
        | some b => b
        | none => campaign.useTemplate
      let finalTemplateId := match templateId with
        | some t => t
        | none => campaign.templateId
      let n := contacts.length
      (uploadLoop env campaign pool finalUseTemplate finalTemplateId message n 0 contacts,
        Except.ok
          { totalContacts := n
            lines := pool.length
            estimatedDurationMs := accDelayAt n env.rd env.rp n })

/-- The campaign rows created by a run of `uploadCampaign`, in order. -/
def recordsOf (effects : List UploadEffect) : List CampaignRecord :=
  effects.filterMap fun e =>
    match e with
    | UploadEffect.createRecord r => some r
    | _ => none

/-- The queue delays of the jobs enqueued by a run of `uploadCampaign`,
in order. -/
def delaysOf (effects : List UploadEffect) : List ℚ :=
  effects.filterMap fun e =>
    match e with
    | UploadEffect.enqueue j => some j.delayMs
    | _ => none

/-- The sequence of accumulated queue delays produced by one
`uploadCampaign` run over an existing parent campaign. -/
def uploadDelays (env : UploadEnv) (campaign : ParentCampaign)
    (contacts : List CampaignContact) (message : Option String)
    (useTemplate : Option Bool) (templateId : Option (Option Nat)) : List ℚ :=
  delaysOf (uploadCampaign env (some campaign) contacts message useTemplate templateId).1

/-! ## Template renderer (campaigns.processor.ts lines 257-310) -/

/-- `interface TemplateVariable { key: string; value: string }`. -/
structure TemplateVariable where
  key : String
  value : String
deriving DecidableEq, Repr

/-- JavaScript `text.replace(pat, repl)` with a *string* pattern: only the
first occurrence of `pat` is replaced.  (`$`-substitution patterns in the
replacement string are not modelled; no input under verification contains
them.)  List-level worker. -/
def replFirstL (pat repl : List Char) : List Char → List Char
  | [] => []
  | c :: rest =>
    if pat.isPrefixOf (c :: rest) then repl ++ (c :: rest).drop pat.length
    else c :: replFirstL pat repl rest

/-- JavaScript `s.replace(pat, repl)` for string patterns. -/
def replaceFirst (s pat repl : String) : String :=
  String.mk (replFirstL pat.toList repl.toList s.toList)

/-- Whether `pat` occurs as a contiguous run inside `s`. -/
def occursIn (pat s : List Char) : Bool :=
  s.tails.any fun t => pat.isPrefixOf t

/-- Whether a string contains the placeholder opener `{{`. -/
def containsPlaceholderOpener (s : String) : Bool :=
  occursIn [lbrace, lbrace] s.toList

/-- `key.replace(/[{}]-class/g, '').trim()`: drop every brace character,
then trim (campaigns.processor.ts lines 270, 279). -/
def stripBracesTrim (k : String) : String :=
  jsTrim (String.mk (k.toList.filter fun c => !(c == lbrace || c == rbrace)))

/-- `{{` ++ s ++ `}}`. -/
def phOf (s : String) : String :=
  String.mk [lbrace, lbrace] ++ s ++ String.mk [rbrace, rbrace]

/-- The reserved name-like keys (campaigns.processor.ts line 289). -/
def nameKeys : List String := ["nome", "name", "cliente"]

/-- The reserved phone-like keys (campaigns.processor.ts line 293). -/
def phoneKeys : List String := ["telefone", "phone", "celular", "mobile", "whatsapp"]

/-- Case-normalized lookup into the batch CSV variables. -/
def lookupCsv (csv : List (String × String)) (k : String) : Option String :=
  (csv.find? fun kv => kv.1 == k).map (·.2)

/-- Value resolution for one template variable (campaigns.processor.ts
lines 277-305): reserved identity aliases first, then the CSV variables
(a present-but-empty CSV value is falsy in JavaScript and falls through),
else reset placeholder-valued or empty-valued variables to the cleaned
placeholder. -/
def resolveVariable (contactName cleanedPhone : String)
    (csv : List (String × String)) (v : TemplateVariable) : TemplateVariable :=
  let cleanKey := stripBracesTrim v.key
  let keyLower := jsToLower cleanKey
  if nameKeys.contains keyLower then
    { v with value := if contactName = "" then "Cliente" else contactName }
  else if phoneKeys.contains keyLower then
    { v with value := cleanedPhone }
  else
    match lookupCsv csv keyLower with
    | some val =>
      if val = "" then
        if v.value = phOf v.key ∨ v.value = "" then { v with value := phOf cleanKey } else v
      else { v with value := val }
    | none =>
      if v.value = phOf v.key ∨ v.value = "" then { v with value := phOf cleanKey } else v

/-- One iteration of the substitution `forEach` (campaigns.processor.ts
lines 307-310): replace the first occurrence of the positional placeholder
`{{index+1}}`, then the first occurrence of the named placeholder
`{{key}}`. -/
def applyOneVar (text : String) (iv : Nat × TemplateVariable) : String :=
  let t1 := replaceFirst text (phOf (toString (iv.1 + 1))) iv.2.value
  replaceFirst t1 (phOf iv.2.key) iv.2.value

/-- The substitution pass over a template body. -/
def applyTemplateVariables (vars : List TemplateVariable) (body : String) : String :=
  vars.enum.foldl applyOneVar body

/-- The matches of the auto-detection pattern (a `{{`, one or more
non-closing-brace characters, then `}}`), scanned left to right with the
scan resuming after each match, exactly as the global regex in
campaigns.processor.ts line 267 does. -/
def scanPlaceholders : List Char → List String
  | [] => []
  | [_] => []
  | c :: c2 :: rest2 =>
    if c = lbrace ∧ c2 = lbrace then
      let inner := rest2.takeWhile fun ch => ch ≠ rbrace
      let after := rest2.drop inner.length
      if inner.length ≠ 0 ∧ after.take 2 = [rbrace, rbrace] then
        String.mk (lbrace :: lbrace :: (inner ++ [rbrace, rbrace])) ::
          scanPlaceholders (after.drop 2)
      else scanPlaceholders (c2 :: rest2)
    else scanPlaceholders (c2 :: rest2)
termination_by l => l.length
decreasing_by
  · simp only [List.length_drop, List.length_cons]
    omega
  · simp
  · simp

/-- Auto-detection of template variables when none were supplied
(campaigns.processor.ts lines 266-275): every regex match becomes a
variable whose key is the brace-stripped trimmed token and whose value is
the placeholder itself. -/
def autoDetectVariables (bodyText : String) : List TemplateVariable :=
  (scanPlaceholders bodyText.toList).map fun m => { key := stripBracesTrim m, value := m }

/-! ## Campaign worker (`CampaignsProcessor.handleSendMessage`,
campaigns.processor.ts lines 37-457)

Database rows live in `WorkerState`; Prisma writes are pure updates of it.
External collaborators (blocklist, rate limiter, line reputation, gateway
sends, `JSON.parse`, spintax, `Math.random()`, `Date.now()`) are resolved
values or functions in `WorkerEnv`.  Outbound network calls are recorded
in a `SendCall` trace. -/

/-- The slice of a `Campaign` row the worker reads and writes. -/
structure WCampaign where
  messageId : Option String
  response : Bool
  retryCount : Nat
  dispatchedAt : Option Int
deriving Repr

/-- A `TemplateMessage` row created by the worker. -/
structure WTemplateMessage where
  templateId : Nat
  contactPhone : String
  contactName : String
  lineId : Nat
  status : String
  errorMessage : Option String
  variablesSerialized : Option (List TemplateVariable)
  campaignId : Nat
deriving Repr

/-- A `Conversation` row created by the worker. -/
structure WConversation where
  contactName : String
  contactPhone : String
  userLine : Nat
  userId : Option Nat
  message : String
  sender : String
  messageType : String
deriving Repr

/-- The persistent state the worker touches. -/
structure WorkerState where
  campaigns : List (Nat × WCampaign)
  templateMessages : List WTemplateMessage
  conversations : List WConversation
deriving Repr

/-- `campaign.findUnique({ where: { id } })`. -/
def lookupCampaign (st : WorkerState) (id : Nat) : Option WCampaign :=
  (st.campaigns.find? fun p => p.1 == id).map (·.2)

/-- `campaign.update({ where: { id }, data })`. -/
def updCampaign (st : WorkerState) (id : Nat) (f : WCampaign → WCampaign) : WorkerState :=
  { st with campaigns := st.campaigns.map fun p => if p.1 == id then (p.1, f p.2) else p }

/-- `templateMessage.create`. -/
def addTemplateMessage (st : WorkerState) (tm : WTemplateMessage) : WorkerState :=
  { st with templateMessages := st.templateMessages ++ [tm] }

/-- `conversationsService.create`. -/
def addConversation (st : WorkerState) (cv : WConversation) : WorkerState :=
  { st with conversations := st.conversations ++ [cv] }

/-- The slice of a `LinesStock` row the worker reads. -/
structure WLine where
  lineStatus : String
  phone : String
  evolutionName : String
  oficial : Bool
  token : Option String
  numberId : Option String
deriving Repr

/-- An `Evolution` row (gateway credentials). -/
structure WEvolution where
  evolutionUrl : String
  evolutionKey : String
deriving Repr

/-- A `Template` row. -/
structure WTemplate where
  id : Nat
  name : String
  language : String
  bodyText : String
deriving Repr

/-- The outcome of `JSON.parse` (with the one extra string-decoding level
already folded in) on a greeting-wrapper candidate: the `greeting` field
(when present), the `content` field and the `csvVariables` object. -/
structure ParsedWrapper where
  greeting : Option (List String)
  content : Option String
  parsedCsvVariables : List (String × String)
deriving Repr

/-- The payload of one `send-campaign-message` job (`job.data`).
`templateVariables` is carried already deserialized (the source tolerates
either a JSON string or an array and immediately parses the former). -/
structure JobData where
  campaignId : Nat
  contactName : String
  contactPhone : String
  contactSegment : Option Nat
  lineId : Nat
  message : Option String
  useTemplate : Bool
  templateId : Option Nat
  templateVariables : Option (List TemplateVariable)
deriving Repr

/-- One outbound network call of the worker. -/
inductive SendCall where
  | typing
  | cloudTemplate
  | evoTemplate
  | text
deriving DecidableEq, Repr

/-- The resolved environment of one worker run.  `sendResult k` is the
gateway outcome of attempt `k` (an error, or an optional returned message
id); `greetingDraw k` is the floored random greeting index of attempt `k`.
The line-reputation check (campaigns.processor.ts lines 102-111) only
logs and is behaviourally inert, and the round-robin operator pick (lines
366-397) is summarized by its result `assignedOperatorId`; no claim under
verification touches either. -/
structure WorkerEnv where
  isBlocked : String → Bool
  findLine : Nat → Option WLine
  canSend : Bool
  findEvolution : String → Option WEvolution
  findTemplate : Nat → Option WTemplate
  parseWrapper : String → Option ParsedWrapper
  regexContent : String → Option String
  applySpintax : String → String
  greetingDraw : Nat → Nat
  sendResult : Nat → Except String (Option String)
  assignedOperatorId : Option Nat
  nowMs : Int

/-- JavaScript truthiness of a nullable numeric id (`0` is falsy). -/
def jsNatTruthy : Option Nat → Bool
  | some t => t != 0
  | none => false

/-- The `let`-destructured mutable variables of `handleSendMessage` that
survive across retry attempts: `message`, `useTemplate`, `finalMessage`. -/
structure AttemptVars where
  message : Option String
  useTemplate : Bool
  finalMessage : String
deriving Repr

/-- `let finalMessage = message || 'Olá! Esta é uma mensagem da nossa
campanha.'` (campaigns.processor.ts line 128) plus the initial values of
the mutable variables. -/
def initialVars (job : JobData) : AttemptVars :=
  { message := job.message
    useTemplate := job.useTemplate
    finalMessage :=
      match job.message with
      | some m => if m = "" then "Olá! Esta é uma mensagem da nossa campanha." else m
      | none => "Olá! Esta é uma mensagem da nossa campanha." }

/-- Global CSV-variable extraction (campaigns.processor.ts lines 168-184):
when the current message looks like JSON and parses, lower-case and trim
every `csvVariables` key; on any failure the variables stay empty. -/
def globalCsvVarsOf (env : WorkerEnv) (message : Option String) : List (String × String) :=
  match message with
  | none => []
  | some m =>
    if trimStartsWithBrace m then
      match env.parseWrapper m with
      | some p => p.parsedCsvVariables.map fun kv => (jsTrim (jsToLower kv.1), kv.2)
      | none => []
    else []

/-- The greeting-flow block of one attempt (campaigns.processor.ts lines
186-245): when the current message parses to a wrapper carrying a
`greeting` array, pick a random greeting, run spintax on it, make it both
the message and the final message, and force template mode off; on a parse
failure attempt the regex recovery of `content` (which only rewrites
`message`, not `finalMessage`).  Returns `isGreetingFlow` and the updated
mutable variables. -/
def greetingStep (env : WorkerEnv) (k : Nat) (vars : AttemptVars) : Bool × AttemptVars :=
  match vars.message with
  | none => (false, vars)
  | some m =>
    if trimStartsWithBrace m then
      match env.parseWrapper m with
      | some p =>
        match p.greeting with
        | some arr =>
          let randomGreeting := arr.getD (env.greetingDraw k) ""
          let msg := env.applySpintax randomGreeting
          (true, { message := some msg, useTemplate := false, finalMessage := msg })
        | none => (false, vars)
      | none =>
        match env.regexContent m with
        | some content => (false, { vars with message := some content })
        | none => (false, vars)
    else (false, vars)

/-- One iteration of the `while (retries < 3 && !sent)` loop
(campaigns.processor.ts lines 130-422, success path), up to but excluding
the `catch`.  Returns the outbound calls of the attempt, the mutable
variables as left by the attempt, and either the state after all success
writes or the caught error. -/
def runAttempt (env : WorkerEnv) (job : JobData) (line : WLine) (st : WorkerState)
    (vars : AttemptVars) (k : Nat) :
    List SendCall × AttemptVars × Except String WorkerState :=
  let csv := globalCsvVarsOf env vars.message
  let g := greetingStep env k vars
  let isGreet := g.1
  let v1 := g.2
  if v1.useTemplate && jsNatTruthy job.templateId then
    match env.findTemplate (job.templateId.getD 0) with
    | none => ([SendCall.typing], v1, Except.error "Template não encontrado")
    | some tmpl =>
      let given := job.templateVariables.getD []
      let detected :=
        if given.length = 0 ∧ tmpl.bodyText ≠ "" then autoDetectVariables tmpl.bodyText
        else given
      let resolved := detected.map (resolveVariable job.contactName (cleanPhone job.contactPhone) csv)
      let text := applyTemplateVariables resolved tmpl.bodyText
      let v2 := { v1 with finalMessage := text }
      let call :=
        if line.oficial && (line.token.getD "" != "") && (line.numberId.getD "" != "") then
          SendCall.cloudTemplate
        else SendCall.evoTemplate
      match env.sendResult k with
      | Except.error e => ([SendCall.typing, call], v2, Except.error e)
      | Except.ok sentId? =>
        let st1 :=
          match sentId? with
          | some sid => updCampaign st job.campaignId fun c => { c with messageId := some sid }
          | none => st
        let st2 := addTemplateMessage st1
          { templateId := tmpl.id
            contactPhone := job.contactPhone
            contactName := job.contactName
            lineId := job.lineId
            status := "SENT"
            errorMessage := none
            variablesSerialized := if resolved.length > 0 then some resolved else none
            campaignId := job.campaignId }
        let st3 := addConversation st2
          { contactName := job.contactName
            contactPhone := job.contactPhone
            userLine := job.lineId
            userId := env.assignedOperatorId
            message := "[TEMPLATE] " ++ v2.finalMessage
            sender := "operator"
            messageType := "template" }
        let st4 := updCampaign st3 job.campaignId fun c =>
          { c with response := !isGreet, dispatchedAt := some env.nowMs }
        ([SendCall.typing, call], v2, Except.ok st4)
  else
    match env.sendResult k with
    | Except.error e => ([SendCall.typing, SendCall.text], v1, Except.error e)
    | Except.ok sentId? =>
      let st1 :=
        match sentId? with
        | some sid => updCampaign st job.campaignId fun c => { c with messageId := some sid }
        | none => st
      let st2 := addConversation st1
        { contactName := job.contactName
          contactPhone := job.contactPhone
          userLine := job.lineId
          userId := env.assignedOperatorId
          message := if v1.useTemplate then "[TEMPLATE] " ++ v1.finalMessage else v1.finalMessage
          sender := "operator"
          messageType := if v1.useTemplate then "template" else "text" }
      let st3 := updCampaign st2 job.campaignId fun c =>
        { c with response := !isGreet, dispatchedAt := some env.nowMs }
      ([SendCall.typing, SendCall.text], v1, Except.ok st3)

/-- The FAILED `TemplateMessage` row created after the third failed
attempt (campaigns.processor.ts lines 438-448). -/
def failedTemplateRecord (job : JobData) (e : String) : WTemplateMessage :=
  { templateId := job.templateId.getD 0
    contactPhone := job.contactPhone
    contactName := job.contactName
    lineId := job.lineId
    status := "FAILED"
    errorMessage := some e
    variablesSerialized := none
    campaignId := job.campaignId }

/-- The retry loop (`while (retries < 3 && !sent)` plus its `catch`,
campaigns.processor.ts lines 130-452): `fuel` is `3 - retries`.  The
`catch` swallows the attempt error; on the third failure it persists
`response = false` and the retry counter, and — when template mode is (by
then) in use with a truthy template id — creates a FAILED template-message
record carrying the error message.  After the third failure the loop
condition ends the handler without rethrowing. -/
def attemptLoop (env : WorkerEnv) (job : JobData) (line : WLine) :
    Nat → Nat → WorkerState → AttemptVars → List SendCall →
    WorkerState × List SendCall × Except String Unit
  | 0, _, st, _, calls => (st, calls, Except.ok ())
  | fuel + 1, retries, st, vars, calls =>
    let a := runAttempt env job line st vars retries
    match a.2.2 with
    | Except.ok st' => (st', calls ++ a.1, Except.ok ())
    | Except.error e =>
      let retries' := retries + 1
      let st' :=
        if 3 ≤ retries' then
          let stA := updCampaign st job.campaignId fun c =>
            { c with response := false, retryCount := retries' }
          if a.2.1.useTemplate && jsNatTruthy job.templateId then
            addTemplateMessage stA (failedTemplateRecord job e)
          else stA
        else st
      attemptLoop env job line fuel retries' st' a.2.1 (calls ++ a.1)

/-- `CampaignsProcessor.handleSendMessage` (campaigns.processor.ts lines
38-457).  Validation: a deleted campaign or a `PAUSED`-marked one aborts
silently; a blocklisted recipient is terminally failed; a missing or
inactive line, an exhausted rate limit, and missing gateway credentials
throw (the outer `catch` rethrows them to the queue). -/
def handleSendMessage (env : WorkerEnv) (st : WorkerState) (job : JobData) :
    WorkerState × List SendCall × Except String Unit :=
  match lookupCampaign st job.campaignId with
  | none => (st, [], Except.ok ())
  | some c =>
    if startsWithStr (c.messageId.getD "") "PAUSED" then (st, [], Except.ok ())
    else if env.isBlocked job.contactPhone then
      (updCampaign st job.campaignId (fun c0 => { c0 with response := false }), [],
        Except.ok ())
    else
      match env.findLine job.lineId with
      | none => (st, [], Except.error "Linha não disponível")
      | some line =>
        if line.lineStatus ≠ "active" then (st, [], Except.error "Linha não disponível")
        else if !env.canSend then (st, [], Except.error "Limite de mensagens atingido")
        else
          match env.findEvolution line.evolutionName with
          | none => (st, [], Except.error "Evolution não encontrada")
          | some _ => attemptLoop env job line 3 0 st (initialVars job) []

/-- The mutable variables (`message`, `useTemplate`, `finalMessage`) as
they stand at the start of attempt `k` of the retry loop.  The state seen
by the executed attempts is the initial store `st`: failing attempts
before the third leave it untouched, and the loop stops at the first
success.  The returned variables of `runAttempt` do not depend on the
store, so this chain describes every execution prefix. -/
def attemptVarsAt (env : WorkerEnv) (job : JobData) (line : WLine)
    (st : WorkerState) : Nat → AttemptVars
  | 0 => initialVars job
  | k + 1 => (runAttempt env job line st (attemptVarsAt env job line st k) k).2.1

/-! ## Concrete fixtures used by witness theorems -/

/-- A two-active-line environment for upload witnesses. -/
def envW : UploadEnv :=
  { allLines := [⟨10, "active", 1⟩, ⟨20, "active", 1⟩]
    padraoSegmentId := none
    configuredGreetings := none
    rd := fun _ => 0
    rp := fun _ => 0
    rc := fun _ => 0
    nowAt := fun _ => 0 }

/-- An environment with no active line anywhere. -/
def envEmptyW : UploadEnv :=
  { allLines := [⟨10, "inactive", 1⟩]
    padraoSegmentId := some 2
    configuredGreetings := none
    rd := fun _ => 0
    rp := fun _ => 0
    rc := fun _ => 0
    nowAt := fun _ => 0 }

/-- A concrete parent campaign in segment 1, not in template mode. -/
def campW : ParentCampaign :=
  { name := "camp", contactSegment := some 1, speed := "slow"
    useTemplate := false, templateId := none, templateVariables := none }

/-- Three concrete contacts without explicit messages. -/
def contactsW : List CampaignContact :=
  [ { name := "Ana", phone := "11999990001" },
    { name := "Bia", phone := "11999990002" },
    { name := "Caio", phone := "11999990003" } ]

/-- A contact with an explicit plain-text (non-JSON) message. -/
def contactHelloW : CampaignContact :=
  { name := "Bob", phone := "11888880000", message := some "Hello" }

/-- A concrete active worker line. -/
def lineW : WLine :=
  { lineStatus := "active", phone := "5511", evolutionName := "evo1"
    oficial := false, token := none, numberId := none }

/-- A worker environment where everything is available and every send
succeeds with gateway id `MID1`. -/
def envWk : WorkerEnv :=
  { isBlocked := fun _ => false
    findLine := fun _ => some lineW
    canSend := true
    findEvolution := fun _ => some ⟨"http://evo", "key"⟩
    findTemplate := fun _ => none
    parseWrapper := fun _ => none
    regexContent := fun _ => none
    applySpintax := id
    greetingDraw := fun _ => 0
    sendResult := fun _ => Except.ok (some "MID1")
    assignedOperatorId := none
    nowMs := 0 }

/-- A store whose only campaign record (id 1) is paused. -/
def stPausedW : WorkerState :=
  { campaigns := [(1, ⟨some "PAUSED:1715000000000", false, 0, none⟩)]
    templateMessages := [], conversations := [] }

/-- A store whose only campaign record (id 1) is scheduled (not paused). -/
def stActiveW : WorkerState :=
  { campaigns := [(1, ⟨some "SCHEDULED:1715000000000", false, 0, none⟩)]
    templateMessages := [], conversations := [] }

/-- A plain-text job for campaign record 1 on line 7. -/
def jobW : JobData :=
  { campaignId := 1, contactName := "Ana", contactPhone := "11999990001"
    contactSegment := some 1, lineId := 7, message := some "hi there"
    useTemplate := false, templateId := none, templateVariables := none }

/-- A worker environment whose first send fails and whose later sends
succeed with gateway id `MID2`. -/
def envRetryW : WorkerEnv :=
  { isBlocked := fun _ => false
    findLine := fun _ => some lineW
    canSend := true
    findEvolution := fun _ => some ⟨"http://evo", "key"⟩
    findTemplate := fun _ => none
    parseWrapper := fun _ => none
    regexContent := fun _ => none
    applySpintax := fun s => s
    greetingDraw := fun _ => 0
    sendResult := fun k =>
      if k = 0 then Except.error "gateway timeout" else Except.ok (some "MID2")
    assignedOperatorId := none
    nowMs := 0 }

/-- A concrete greeting-wrapper message, as `uploadCampaign` produces. -/
def wrapMsgW : String :=
  "\x7b\"greeting\":[\"Oi\"],\"content\":\"x\",\"csvVariables\":\x7b\x7d\x7d"

/-- A greeting-wrapper job that *requested* template mode (the usual
output of a template-mode `uploadCampaign`). -/
def jobWrapW : JobData :=
  { campaignId := 1, contactName := "Ana", contactPhone := "11999990001"
    contactSegment := some 1, lineId := 7, message := some wrapMsgW
    useTemplate := true, templateId := some 5, templateVariables := none }

/-- A worker environment where everything is available (the template row
included) but every gateway send fails.  `parseWrapper` models
`JSON.parse` on the one wrapper string in play. -/
def envFailW : WorkerEnv :=
  { isBlocked := fun _ => false
    findLine := fun _ => some lineW
    canSend := true
    findEvolution := fun _ => some ⟨"http://evo", "key"⟩
    findTemplate := fun _ => some ⟨5, "tpl", "pt_BR", "Corpo"⟩
    parseWrapper := fun m =>
      if m = wrapMsgW then some ⟨some ["Oi"], some "x", []⟩ else none
    regexContent := fun _ => none
    applySpintax := fun s => s
    greetingDraw := fun _ => 0
    sendResult := fun _ => Except.error "gateway down"
    assignedOperatorId := none
    nowMs := 0 }

/-! ## Claim theorems -/

/-- **C3** — For every existing line and every pair of counts,
`canSendMessage` returns `false` iff `messagesToday` meets or exceeds the
daily limit or `messagesLastHour` meets or exceeds the hourly limit of the
tier selected by the line's age in whole days: `age < 7` gives
`{daily 300, hourly 50}`; `7 ≤ age < 30` and `age ≥ 30` both give
`{daily 450, hourly 80}`; in particular ages 7 and 30 use the upper tier's
limits. -/
theorem canSendMessage_tier_spec (nowMs : Int) (line : RLine) (t h : Nat) :
    (canSendMessage nowMs (Except.ok (some line)) (Except.ok t) (Except.ok h) = false ↔
      (getLimit (getLineAge nowMs line.createdAtMs)).daily ≤ t ∨
        (getLimit (getLineAge nowMs line.createdAtMs)).hourly ≤ h) ∧
    (getLineAge nowMs line.createdAtMs < 7 →
      getLimit (getLineAge nowMs line.createdAtMs) = ⟨300, 50⟩) ∧
    (7 ≤ getLineAge nowMs line.createdAtMs → getLineAge nowMs line.createdAtMs < 30 →
      getLimit (getLineAge nowMs line.createdAtMs) = ⟨450, 80⟩) ∧
    (30 ≤ getLineAge nowMs line.createdAtMs →
      getLimit (getLineAge nowMs line.createdAtMs) = ⟨450, 80⟩) := by
  refine ⟨?_, ?_, ?_, ?_⟩
  · simp only [canSendMessage, canSendCore]
    constructor
    · intro hb
      rcases Bool.and_eq_false_iff.mp hb with hb' | hb' <;>
        simp only [decide_eq_false_iff_not, not_lt] at hb'
      · exact Or.inl hb'
      · exact Or.inr hb'
    · intro hb
      rcases hb with hb' | hb' <;> simp [Nat.not_lt_of_le hb']
  · intro h7
    simp [getLimit, h7, newLineLimit]
  · intro h7 h30
    rw [getLimit, if_neg (by omega), if_pos h30]
    rfl
  · intro h30
    rw [getLimit, if_neg (by omega), if_neg (by omega)]
    rfl

/-- **C3 witness** — a line exactly 7 days old takes the upper tier
`{450, 80}`, and 450 messages today make `canSendMessage` refuse. -/
theorem canSendMessage_tier_spec_witness :
    canSendMessage (7 * 86400000) (Except.ok (some ⟨0⟩)) (Except.ok 450) (Except.ok 0) = false ∧
      getLimit (getLineAge (7 * 86400000) 0) = ⟨450, 80⟩ := by
  have h := canSendMessage_tier_spec (7 * 86400000) ⟨0⟩ 450 0
  exact ⟨h.1.mpr (by decide), h.2.2.1 (by decide) (by decide)⟩

/-- **C4** — if any internal step of `canSendMessage` that actually runs
(the line read, or either count read once the line was found) throws, the
limiter fails open and returns `true` instead of propagating the error. -/
theorem canSendMessage_fail_open (nowMs : Int)
    (findLine : Except DbErr (Option RLine)) (countToday countLastHour : Except DbErr Nat)
    (h : (∃ e, findLine = Except.error e) ∨
         ∃ l, findLine = Except.ok (some l) ∧
           ((∃ e, countToday = Except.error e) ∨ ∃ e, countLastHour = Except.error e)) :
    canSendMessage nowMs findLine countToday countLastHour = true := by
  rcases h with ⟨e, he⟩ | ⟨l, hl, hc⟩
  · simp [canSendMessage, he]
  · rcases hc with ⟨e, he⟩ | ⟨e, he⟩
    · simp [canSendMessage, hl, he]
    · cases countToday with
      | error e2 => simp [canSendMessage, hl]
      | ok t => simp [canSendMessage, hl, he]

/-- **C4 witness** — a failing line read yields `true`. -/
theorem canSendMessage_fail_open_witness :
    canSendMessage 0 (Except.error ⟨"db down"⟩) (Except.ok 0) (Except.ok 0) = true :=
  canSendMessage_fail_open 0 _ _ _ (Or.inl ⟨⟨"db down"⟩, rfl⟩)

/-- **C10** — a line id matching no line makes `canSendMessage` return
`false` without throwing, a third behaviour distinct from the fail-open
`true` of the internal-error path and from the domain error that
`getRateLimitInfo` throws for the same missing line. -/
theorem canSendMessage_missing_line (nowMs : Int)
    (countToday countLastHour : Except DbErr Nat) (e : DbErr) :
    canSendMessage nowMs (Except.ok none) countToday countLastHour = false ∧
      getRateLimitInfo nowMs (Except.ok none) countToday countLastHour =
        Except.error "Linha não encontrada" ∧
      canSendMessage nowMs (Except.error e) countToday countLastHour = true := by
  refine ⟨?_, ?_, ?_⟩
  · simp [canSendMessage]
  · simp [getRateLimitInfo]
  · simp [canSendMessage]

/-! ### Shape of the effects emitted by the upload loop -/

theorem recordsOf_append (a b : List UploadEffect) :
    recordsOf (a ++ b) = recordsOf a ++ recordsOf b := by
  simp [recordsOf, List.filterMap_append]

theorem delaysOf_append (a b : List UploadEffect) :
    delaysOf (a ++ b) = delaysOf a ++ delaysOf b := by
  simp [delaysOf, List.filterMap_append]

theorem recordsOf_contactEffects (env : UploadEnv) (campaign : ParentCampaign)
    (pool : List Nat) (fut : Bool) (ftid : Option Nat) (gm : Option String)
    (n i : Nat) (c : CampaignContact) :
    recordsOf (contactEffects env campaign pool fut ftid gm n i c) =
      [contactRecord env campaign pool fut ftid gm n i c] := rfl

theorem delaysOf_contactEffects (env : UploadEnv) (campaign : ParentCampaign)
    (pool : List Nat) (fut : Bool) (ftid : Option Nat) (gm : Option String)
    (n i : Nat) (c : CampaignContact) :
    delaysOf (contactEffects env campaign pool fut ftid gm n i c) =
      [accDelayAt n env.rd env.rp i] := rfl

theorem recordsOf_uploadLoop_length (env : UploadEnv) (campaign : ParentCampaign)
    (pool : List Nat) (fut : Bool) (ftid : Option Nat) (gm : Option String) (n : Nat) :
    ∀ (cs : List CampaignContact) (i : Nat),
      (recordsOf (uploadLoop env campaign pool fut ftid gm n i cs)).length = cs.length := by
  intro cs
  induction cs with
  | nil => intro i; rfl
  | cons c rest ih =>
    intro i
    simp [uploadLoop, recordsOf_append, recordsOf_contactEffects, ih]

theorem recordsOf_uploadLoop_getD (env : UploadEnv) (campaign : ParentCampaign)
    (pool : List Nat) (fut : Bool) (ftid : Option Nat) (gm : Option String) (n : Nat) :
    ∀ (cs : List CampaignContact) (i k : Nat), k < cs.length →
      (recordsOf (uploadLoop env campaign pool fut ftid gm n i cs)).getD k default =
        contactRecord env campaign pool fut ftid gm n (i + k) (cs.getD k default) := by
  intro cs
  induction cs with
  | nil => intro i k hk; simp at hk
  | cons c rest ih =>
    intro i k hk
    have hstep : recordsOf (uploadLoop env campaign pool fut ftid gm n i (c :: rest)) =
        contactRecord env campaign pool fut ftid gm n i c ::
          recordsOf (uploadLoop env campaign pool fut ftid gm n (i + 1) rest) := by
      simp [uploadLoop, recordsOf_append, recordsOf_contactEffects]
    rw [hstep]
    cases k with
    | zero => simp
    | succ k =>
      have hk' : k < rest.length := by simpa using hk
      have := ih (i + 1) k hk'
      simpa [Nat.add_assoc, Nat.add_comm 1 k] using this

theorem delaysOf_uploadLoop_length (env : UploadEnv) (campaign : ParentCampaign)
    (pool : List Nat) (fut : Bool) (ftid : Option Nat) (gm : Option String) (n : Nat) :
    ∀ (cs : List CampaignContact) (i : Nat),
      (delaysOf (uploadLoop env campaign pool fut ftid gm n i cs)).length = cs.length := by
  intro cs
  induction cs with
  | nil => intro i; rfl
  | cons c rest ih =>
    intro i
    simp [uploadLoop, delaysOf_append, delaysOf_contactEffects, ih]

theorem delaysOf_uploadLoop_getD (env : UploadEnv) (campaign : ParentCampaign)
    (pool : List Nat) (fut : Bool) (ftid : Option Nat) (gm : Option String) (n : Nat) :
    ∀ (cs : List CampaignContact) (i k : Nat), k < cs.length →
      (delaysOf (uploadLoop env campaign pool fut ftid gm n i cs)).getD k 0 =
        accDelayAt n env.rd env.rp (i + k) := by
  intro cs
  induction cs with
  | nil => intro i k hk; simp at hk
  | cons c rest ih =>
    intro i k hk
    have hstep : delaysOf (uploadLoop env campaign pool fut ftid gm n i (c :: rest)) =
        accDelayAt n env.rd env.rp i ::
          delaysOf (uploadLoop env campaign pool fut ftid gm n (i + 1) rest) := by
      simp [uploadLoop, delaysOf_append, delaysOf_contactEffects]
    rw [hstep]
    cases k with
    | zero => simp
    | succ k =>
      have hk' : k < rest.length := by simpa using hk
      have := ih (i + 1) k hk'
      simpa [Nat.add_assoc, Nat.add_comm 1 k] using this

/-! ### Bounds on the randomized delay quantities -/

theorem stepDelayMs_bounds (r : ℚ) (h0 : 0 ≤ r) (h1 : r < 1) :
    30000 ≤ stepDelayMs r ∧ stepDelayMs r < 150000 := by
  unfold stepDelayMs minDelayMinutes maxDelayMinutes
  constructor <;> nlinarith

theorem longPauseMs_bounds (r : ℚ) (h0 : 0 ≤ r) (h1 : r < 1) :
    300000 ≤ longPauseMs r ∧ longPauseMs r < 900000 := by
  unfold longPauseMs
  constructor <;> nlinarith

theorem accDelayAt_succ (n : Nat) (rd rp : Nat → ℚ) (i : Nat) :
    accDelayAt n rd rp (i + 1) =
      accDelayAt n rd rp i + stepDelayMs (rd i) +
        (if (i + 1) % 20 = 0 ∧ i < n - 1 then longPauseMs (rp i) else 0) := by
  by_cases hc : (i + 1) % 20 = 0 ∧ i < n - 1 <;> simp [accDelayAt, hc]

/-- Unfolding of a successful `uploadCampaign` run (line pool non-empty). -/
theorem uploadCampaign_pos (env : UploadEnv) (campaign : ParentCampaign)
    (contacts : List CampaignContact) (message : Option String)
    (useTemplate : Option Bool) (templateId : Option (Option Nat))
    (h : resolveLinePool env campaign.contactSegment ≠ []) :
    uploadCampaign env (some campaign) contacts message useTemplate templateId =
      (uploadLoop env campaign (resolveLinePool env campaign.contactSegment)
        (match useTemplate with | some b => b | none => campaign.useTemplate)
        (match templateId with | some t => t | none => campaign.templateId)
        message contacts.length 0 contacts,
       Except.ok
        { totalContacts := contacts.length
          lines := (resolveLinePool env campaign.contactSegment).length
          estimatedDurationMs :=
            accDelayAt contacts.length env.rd env.rp contacts.length }) := by
  have hlen : ¬ (resolveLinePool env campaign.contactSegment).length = 0 := by
    simpa [List.length_eq_zero] using h
  simp [uploadCampaign, hlen]

/-- **C1** — for every batch accepted by `uploadCampaign` and every
resolved non-empty line pool, the record created for the contact at
0-based index `i` is assigned the line at position `i % poolSize` in the
pool. -/
theorem uploadCampaign_round_robin (env : UploadEnv) (campaign : ParentCampaign)
    (contacts : List CampaignContact) (message : Option String)
    (useTemplate : Option Bool) (templateId : Option (Option Nat))
    (hpool : resolveLinePool env campaign.contactSegment ≠ []) :
    (recordsOf (uploadCampaign env (some campaign) contacts message useTemplate
      templateId).1).length = contacts.length ∧
    ∀ i, i < contacts.length →
      ((recordsOf (uploadCampaign env (some campaign) contacts message useTemplate
        templateId).1).getD i default).lineReceptor =
        (resolveLinePool env campaign.contactSegment).getD
          (i % (resolveLinePool env campaign.contactSegment).length) 0 := by
  rw [uploadCampaign_pos env campaign contacts message useTemplate templateId hpool]
  constructor
  · exact recordsOf_uploadLoop_length env campaign _ _ _ message contacts.length contacts 0
  · intro i hi
    rw [recordsOf_uploadLoop_getD env campaign _ _ _ message contacts.length contacts 0 i hi]
    simp [contactRecord]

/-- **C1 witness** — three contacts over the two-line pool `[10, 20]`:
contact 2 is assigned `pool[2 % 2] = pool[0]`. -/
theorem uploadCampaign_round_robin_witness :
    resolveLinePool envW campW.contactSegment ≠ [] ∧
    ((recordsOf (uploadCampaign envW (some campW) contactsW none none none).1).getD 2
      default).lineReceptor =
      (resolveLinePool envW campW.contactSegment).getD
        (2 % (resolveLinePool envW campW.contactSegment).length) 0 := by
  have hp : resolveLinePool envW campW.contactSegment ≠ [] := by decide
  exact ⟨hp, (uploadCampaign_round_robin envW campW contactsW none none none hp).2 2
    (by decide)⟩

/-- **C2** — the accumulated delays of an accepted batch are strictly
increasing: each contact's delay is the previous one plus a uniform draw
in `[30s, 150s)`, plus — exactly when the next index completes a group of
20 — one long pause in `[5min, 15min)`; and the accumulation step after
the final contact of the batch never adds the long pause, even when the
batch size is a multiple of 20. -/
theorem uploadCampaign_delay_cadence (env : UploadEnv) (campaign : ParentCampaign)
    (contacts : List CampaignContact) (message : Option String)
    (useTemplate : Option Bool) (templateId : Option (Option Nat))
    (hpool : resolveLinePool env campaign.contactSegment ≠ [])
    (hrd : ∀ i, 0 ≤ env.rd i ∧ env.rd i < 1)
    (hrp : ∀ i, 0 ≤ env.rp i ∧ env.rp i < 1) :
    (uploadDelays env campaign contacts message useTemplate templateId).length =
      contacts.length ∧
    (∀ i, i + 1 < contacts.length →
      (uploadDelays env campaign contacts message useTemplate templateId).getD i 0 <
        (uploadDelays env campaign contacts message useTemplate templateId).getD (i + 1) 0 ∧
      ∃ inc, 30000 ≤ inc ∧ inc < 150000 ∧
        (¬ (20 ∣ (i + 1)) →
          (uploadDelays env campaign contacts message useTemplate templateId).getD (i + 1) 0 =
            (uploadDelays env campaign contacts message useTemplate templateId).getD i 0 + inc) ∧
        ((20 ∣ (i + 1)) →
          ∃ p, 300000 ≤ p ∧ p < 900000 ∧
            (uploadDelays env campaign contacts message useTemplate templateId).getD (i + 1) 0 =
              (uploadDelays env campaign contacts message useTemplate templateId).getD i 0 +
                inc + p)) ∧
    (∀ s, (uploadCampaign env (some campaign) contacts message useTemplate templateId).2 =
        Except.ok s → 0 < contacts.length →
      ∃ inc, 30000 ≤ inc ∧ inc < 150000 ∧
        s.estimatedDurationMs =
          (uploadDelays env campaign contacts message useTemplate templateId).getD
            (contacts.length - 1) 0 + inc) := by
  have hup := uploadCampaign_pos env campaign contacts message useTemplate templateId hpool
  have hgd : ∀ k, k < contacts.length →
      (uploadDelays env campaign contacts message useTemplate templateId).getD k 0 =
        accDelayAt contacts.length env.rd env.rp k := by
    intro k hk
    unfold uploadDelays
    rw [hup]
    simpa using delaysOf_uploadLoop_getD env campaign _ _ _ message contacts.length
      contacts 0 k hk
  refine ⟨?_, ?_, ?_⟩
  · unfold uploadDelays
    rw [hup]
    exact delaysOf_uploadLoop_length env campaign _ _ _ message contacts.length contacts 0
  · intro i hi
    obtain ⟨hs1, hs2⟩ := stepDelayMs_bounds (env.rd i) (hrd i).1 (hrd i).2
    obtain ⟨hp1, hp2⟩ := longPauseMs_bounds (env.rp i) (hrp i).1 (hrp i).2
    have hin : i < contacts.length - 1 := by omega
    have hrw : (uploadDelays env campaign contacts message useTemplate templateId).getD
        (i + 1) 0 =
        accDelayAt contacts.length env.rd env.rp i + stepDelayMs (env.rd i) +
          (if (i + 1) % 20 = 0 ∧ i < contacts.length - 1 then longPauseMs (env.rp i)
           else 0) := by
      rw [hgd (i + 1) hi, accDelayAt_succ]
    have hrwi := hgd i (by omega)
    refine ⟨?_, stepDelayMs (env.rd i), hs1, hs2, ?_, ?_⟩
    · rw [hrw, hrwi]
      by_cases hc : (i + 1) % 20 = 0 ∧ i < contacts.length - 1
      · rw [if_pos hc]; linarith
      · rw [if_neg hc]; linarith
    · intro hnd
      have hmod : ¬ ((i + 1) % 20 = 0) := by omega
      rw [hrw, hrwi, if_neg (fun hc => hmod hc.1), add_zero]
    · intro hd
      have hmod : (i + 1) % 20 = 0 := by omega
      exact ⟨longPauseMs (env.rp i), hp1, hp2, by rw [hrw, hrwi, if_pos ⟨hmod, hin⟩]⟩
  · intro s hs hn
    rw [hup] at hs
    obtain rfl := (Except.ok.inj hs).symm
    obtain ⟨hs1, hs2⟩ := stepDelayMs_bounds (env.rd (contacts.length - 1))
      (hrd (contacts.length - 1)).1 (hrd (contacts.length - 1)).2
    refine ⟨stepDelayMs (env.rd (contacts.length - 1)), hs1, hs2, ?_⟩
    have h1 : contacts.length = (contacts.length - 1) + 1 := by omega
    have key : accDelayAt contacts.length env.rd env.rp contacts.length =
        accDelayAt contacts.length env.rd env.rp (contacts.length - 1) +
          stepDelayMs (env.rd (contacts.length - 1)) := by
      conv =>
        lhs
        rw [h1]
      rw [accDelayAt_succ, if_neg (fun hc => absurd hc.2 (lt_irrefl _)), add_zero, ← h1]
    rw [hgd (contacts.length - 1) (by omega)]
    exact key

/-- **C2 witness** — with both random streams pinned at 0, the delay of
contact 1 strictly exceeds the delay of contact 0. -/
theorem uploadCampaign_delay_cadence_witness :
    (uploadDelays envW campW contactsW none none none).getD 0 0 <
      (uploadDelays envW campW contactsW none none none).getD 1 0 := by
  have h := uploadCampaign_delay_cadence envW campW contactsW none none none (by decide)
    (fun i => ⟨le_refl 0, by norm_num [envW]⟩) (fun i => ⟨le_refl 0, by norm_num [envW]⟩)
  exact (h.2.1 0 (by decide)).1

/-- **C9** — when no active line exists in the campaign's segment and none
in the default `Padrão` segment, `uploadCampaign` rejects the whole batch
with the no-active-line error and performs no write at all: no contact
upsert, no campaign record, no enqueued job. -/
theorem uploadCampaign_atomic_reject (env : UploadEnv) (campaign : ParentCampaign)
    (contacts : List CampaignContact) (message : Option String)
    (useTemplate : Option Bool) (templateId : Option (Option Nat))
    (h1 : env.allLines.filter (fun l =>
      l.lineStatus == "active" && matchesSegmentFilter campaign.contactSegment l) = [])
    (h2 : ∀ pid, env.padraoSegmentId = some pid →
      env.allLines.filter (fun l => l.lineStatus == "active" && l.segment == pid) = []) :
    uploadCampaign env (some campaign) contacts message useTemplate templateId =
      ([], Except.error "Nenhuma linha ativa disponível para disparo") := by
  have hpool : resolveLinePool env campaign.contactSegment = [] := by
    unfold resolveLinePool
    rw [h1]
    cases hp : env.padraoSegmentId with
    | none => simp
    | some pid => simp [h2 pid hp]
  simp [uploadCampaign, hpool]

/-- **C9 witness** — one inactive line, a `Padrão` segment with no active
line either: the upload returns only the error, with an empty effect
list. -/
theorem uploadCampaign_atomic_reject_witness :
    uploadCampaign envEmptyW (some campW) contactsW none none none =
      ([], Except.error "Nenhuma linha ativa disponível para disparo") := by
  refine uploadCampaign_atomic_reject envEmptyW campW contactsW none none none
    (by decide) ?_
  intro pid hp
  simp only [envEmptyW] at hp
  obtain rfl : pid = 2 := by
    cases hp
    rfl
  decide

set_option maxRecDepth 4000 in
/-- **C7 counterexample** — a contact that supplies the explicit message
`"Hello"` does *not* have it stored unchanged: the created campaign
record's message is the synthesized greeting wrapper instead (the code
wraps every message that does not start with a brace). -/
theorem uploadCampaign_explicit_message_discarded :
    ((recordsOf (uploadCampaign envW (some campW) [contactHelloW] none none none).1).getD 0
      default).message ≠ "Hello" := by
  decide

/-- **C7 (amended)** — the greeting wrapper is synthesized exactly for the
contacts whose resolved message (the per-contact message, falling back to
the global message, empty strings counting as absent) is missing or does
not start with `'\x7b'` after trimming; only a contact whose resolved
message starts with `'\x7b'` has it stored unchanged. -/
theorem resolveContactMessage_spec (contactMsg globalMsg : Option String)
    (cfg : Option (List String)) (fut : Bool) (draw : Nat)
    (vars : List (String × String)) :
    (∀ m, jsStrOr contactMsg globalMsg = some m → trimStartsWithBrace m = true →
      resolveContactMessage contactMsg globalMsg cfg fut draw vars = m) ∧
    (∀ m, jsStrOr contactMsg globalMsg = some m → trimStartsWithBrace m = false →
      resolveContactMessage contactMsg globalMsg cfg fut draw vars =
        wrapperJson (greetingsOf cfg) (chooseContent fut draw) vars) ∧
    (jsStrOr contactMsg globalMsg = none →
      resolveContactMessage contactMsg globalMsg cfg fut draw vars =
        wrapperJson (greetingsOf cfg) (chooseContent fut draw) vars) := by
  refine ⟨?_, ?_, ?_⟩
  · intro m hm hb
    simp [resolveContactMessage, hm, hb]
  · intro m hm hb
    simp [resolveContactMessage, hm, hb]
  · intro hm
    simp [resolveContactMessage, hm]

/-- **C7 witness** — a message that already is wrapper-shaped JSON is
stored unchanged. -/
theorem resolveContactMessage_spec_witness :
    resolveContactMessage (some "\x7b\"greeting\":[\"Oi\"]\x7d") none none false 0 [] =
      "\x7b\"greeting\":[\"Oi\"]\x7d" := by
  exact (resolveContactMessage_spec (some "\x7b\"greeting\":[\"Oi\"]\x7d") none none
    false 0 []).1 _ rfl (by decide)

/-! ### Template substitution lemmas -/

theorem occursIn_mono (pre pat s : List Char) (hpre : pre.isPrefixOf pat = true)
    (h : occursIn pre s = false) : occursIn pat s = false := by
  rw [occursIn] at h ⊢
  rw [List.any_eq_false] at h ⊢
  intro t ht hpat
  refine absurd ?_ (by simpa using h t ht)
  have h1 : pre <+: pat := List.isPrefixOf_iff_prefix.mp hpre
  have h2 : pat <+: t := List.isPrefixOf_iff_prefix.mp hpat
  exact h1.trans h2

theorem replFirstL_of_not_occurs (pat repl : List Char) :
    ∀ s : List Char, occursIn pat s = false → replFirstL pat repl s = s := by
  intro s
  induction s with
  | nil => intro h; rfl
  | cons c rest ih =>
    intro h
    rw [occursIn, List.tails_cons, List.any_cons, Bool.or_eq_false_iff] at h
    rw [replFirstL, if_neg (by simp [h.1]), ih h.2]

theorem replaceFirst_of_not_contains (s pat repl : String)
    (h : occursIn pat.toList s.toList = false) : replaceFirst s pat repl = s := by
  rw [replaceFirst, replFirstL_of_not_occurs pat.toList repl.toList s.toList h]
  cases s
  rfl

theorem opener_isPrefixOf_phOf (k : String) :
    [lbrace, lbrace].isPrefixOf (phOf k).toList = true := by
  rw [List.isPrefixOf_iff_prefix, phOf]
  refine ⟨k.toList ++ [rbrace, rbrace], ?_⟩
  cases k
  simp [String.toList]

theorem applyOneVar_of_no_opener (text : String) (iv : Nat × TemplateVariable)
    (h : containsPlaceholderOpener text = false) : applyOneVar text iv = text := by
  rw [containsPlaceholderOpener] at h
  rw [applyOneVar,
    replaceFirst_of_not_contains _ _ _
      (occursIn_mono _ _ _ (opener_isPrefixOf_phOf (toString (iv.1 + 1))) h),
    replaceFirst_of_not_contains _ _ _
      (occursIn_mono _ _ _ (opener_isPrefixOf_phOf iv.2.key) h)]

theorem foldl_applyOneVar_id (l : List (Nat × TemplateVariable)) :
    ∀ body : String, containsPlaceholderOpener body = false →
      l.foldl applyOneVar body = body := by
  induction l with
  | nil => intro body h; rfl
  | cons x xs ih =>
    intro body h
    rw [List.foldl_cons, applyOneVar_of_no_opener body x h, ih body h]

/-- **C8 counterexample** — with the single known variable
`{key := "name", value := "X"}` and the body `{{name}} {{name}}`, rendering
yields `X {{name}}`: the second occurrence of the known placeholder is NOT
replaced (JavaScript `String.replace` with a string pattern replaces only
the first occurrence), refuting "replaces every occurrence". -/
theorem applyTemplateVariables_second_occurrence_kept :
    applyTemplateVariables [⟨"name", "X"⟩] (phOf "name" ++ " " ++ phOf "name") =
      "X " ++ phOf "name" ∧
    applyTemplateVariables [⟨"name", "X"⟩] (phOf "name" ++ " " ++ phOf "name") ≠ "X X" := by
  constructor <;> decide

/-- **C8 (amended)** — template substitution replaces the *first*
occurrence of each variable's positional placeholder `{{index+1}}` and the
first occurrence of its named placeholder `{{key}}` (not every
occurrence); it is deterministic (it is a pure function of its inputs);
and a body containing no `{{` opener is left entirely unchanged. -/
theorem applyTemplateVariables_first_occurrence_spec :
    (∀ (vars : List TemplateVariable) (body : String),
      containsPlaceholderOpener body = false →
        applyTemplateVariables vars body = body) ∧
    applyTemplateVariables [⟨"name", "X"⟩] (phOf "name" ++ " " ++ phOf "name") =
      replaceFirst (phOf "name" ++ " " ++ phOf "name") (phOf "name") "X" := by
  constructor
  · intro vars body h
    rw [applyTemplateVariables, foldl_applyOneVar_id _ body h]
  · decide

/-- **C8 witness** — a placeholder-free body is returned unchanged. -/
theorem applyTemplateVariables_first_occurrence_spec_witness :
    containsPlaceholderOpener "hello world" = false ∧
      applyTemplateVariables [⟨"nome", "Ana"⟩] "hello world" = "hello world" :=
  ⟨by decide,
    applyTemplateVariables_first_occurrence_spec.1 [⟨"nome", "Ana"⟩] "hello world"
      (by decide)⟩

/-! ### Worker state lemmas -/

theorem find_map_upd (id : Nat) (f : WCampaign → WCampaign) :
    ∀ l : List (Nat × WCampaign),
      ((l.map fun p => if p.1 == id then (p.1, f p.2) else p).find? fun p => p.1 == id) =
        (l.find? fun p => p.1 == id).map fun p => (p.1, f p.2) := by
  intro l
  induction l with
  | nil => rfl
  | cons p rest ih =>
    cases hbeq : (p.1 == id) with
    | true =>
      rw [List.map_cons, if_pos hbeq,
        @List.find?_cons_of_pos _ (fun q : Nat × WCampaign => q.1 == id) (p.1, f p.2) _ hbeq,
        @List.find?_cons_of_pos _ (fun q : Nat × WCampaign => q.1 == id) p _ hbeq]
      rfl
    | false =>
      rw [List.map_cons, if_neg (by simp [hbeq]),
        @List.find?_cons_of_neg _ (fun q : Nat × WCampaign => q.1 == id) p _ (by simp [hbeq]),
        @List.find?_cons_of_neg _ (fun q : Nat × WCampaign => q.1 == id) p _ (by simp [hbeq]),
        ih]

theorem lookupCampaign_updCampaign_self (st : WorkerState) (id : Nat)
    (f : WCampaign → WCampaign) :
    lookupCampaign (updCampaign st id f) id = (lookupCampaign st id).map f := by
  rw [lookupCampaign, updCampaign, lookupCampaign]
  simp only []
  rw [find_map_upd]
  cases st.campaigns.find? fun p => p.1 == id <;> rfl

theorem lookupCampaign_addTemplateMessage (st : WorkerState) (tm : WTemplateMessage)
    (id : Nat) : lookupCampaign (addTemplateMessage st tm) id = lookupCampaign st id := rfl

theorem lookupCampaign_addConversation (st : WorkerState) (cv : WConversation)
    (id : Nat) : lookupCampaign (addConversation st cv) id = lookupCampaign st id := rfl

theorem templateMessages_updCampaign (st : WorkerState) (id : Nat)
    (f : WCampaign → WCampaign) :
    (updCampaign st id f).templateMessages = st.templateMessages := rfl

theorem templateMessages_addTemplateMessage (st : WorkerState) (tm : WTemplateMessage) :
    (addTemplateMessage st tm).templateMessages = st.templateMessages ++ [tm] := rfl

/-- **C5** — when the referenced campaign record no longer exists, or its
`messageId` starts with the pause marker `PAUSED`, the worker returns
without throwing, performs no outbound call of any kind, and leaves the
whole persistent state unchanged. -/
theorem handleSendMessage_pause_abort (env : WorkerEnv) (st : WorkerState) (job : JobData)
    (h : lookupCampaign st job.campaignId = none ∨
      ∃ c mid, lookupCampaign st job.campaignId = some c ∧ c.messageId = some mid ∧
        startsWithStr mid "PAUSED" = true) :
    handleSendMessage env st job = (st, [], Except.ok ()) := by
  rcases h with h | ⟨c, mid, hc, hmid, hp⟩
  · simp [handleSendMessage, h]
  · simp [handleSendMessage, hc, hmid, hp]

/-- **C5 witness** — a job whose campaign record carries a `PAUSED:` marker
is a silent no-op. -/
theorem handleSendMessage_pause_abort_witness :
    handleSendMessage envWk stPausedW jobW = (stPausedW, [], Except.ok ()) := by
  exact handleSendMessage_pause_abort envWk stPausedW jobW
    (Or.inr ⟨⟨some "PAUSED:1715000000000", false, 0, none⟩, "PAUSED:1715000000000",
      rfl, rfl, by decide⟩)

/-! ### Retry-loop unfolding and attempt lemmas -/

theorem handleSendMessage_valid (env : WorkerEnv) (st : WorkerState) (job : JobData)
    (c0 : WCampaign) (line : WLine) (evo : WEvolution)
    (H1 : lookupCampaign st job.campaignId = some c0)
    (H2 : startsWithStr (c0.messageId.getD "") "PAUSED" = false)
    (H3 : env.isBlocked job.contactPhone = false)
    (H4 : env.findLine job.lineId = some line)
    (H5 : line.lineStatus = "active")
    (H6 : env.canSend = true)
    (H7 : env.findEvolution line.evolutionName = some evo) :
    handleSendMessage env st job = attemptLoop env job line 3 0 st (initialVars job) [] := by
  simp [handleSendMessage, H1, H2, H3, H4, H5, H6, H7]

theorem attemptLoop_zero (env : WorkerEnv) (job : JobData) (line : WLine)
    (retries : Nat) (st : WorkerState) (vars : AttemptVars) (calls : List SendCall) :
    attemptLoop env job line 0 retries st vars calls = (st, calls, Except.ok ()) := rfl

theorem attemptLoop_succ (env : WorkerEnv) (job : JobData) (line : WLine)
    (fuel retries : Nat) (st : WorkerState) (vars : AttemptVars) (calls : List SendCall) :
    attemptLoop env job line (fuel + 1) retries st vars calls =
      match (runAttempt env job line st vars retries).2.2 with
      | Except.ok st' =>
        (st', calls ++ (runAttempt env job line st vars retries).1, Except.ok ())
      | Except.error e =>
        attemptLoop env job line fuel (retries + 1)
          (if 3 ≤ retries + 1 then
            (if (runAttempt env job line st vars retries).2.1.useTemplate &&
                jsNatTruthy job.templateId then
              addTemplateMessage
                (updCampaign st job.campaignId fun c =>
                  { c with response := false, retryCount := retries + 1 })
                (failedTemplateRecord job e)
            else
              updCampaign st job.campaignId fun c =>
                { c with response := false, retryCount := retries + 1 })
          else st)
          (runAttempt env job line st vars retries).2.1
          (calls ++ (runAttempt env job line st vars retries).1) := rfl

theorem greetingStep_plain (env : WorkerEnv) (k : Nat) (vars : AttemptVars)
    (h : ∀ m, vars.message = some m → trimStartsWithBrace m = false) :
    greetingStep env k vars = (false, vars) := by
  rw [greetingStep]
  cases hm : vars.message with
  | none => rfl
  | some m => simp [h m hm]

theorem runAttempt_vars (env : WorkerEnv) (job : JobData) (line : WLine)
    (st : WorkerState) (vars : AttemptVars) (k : Nat) :
    (runAttempt env job line st vars k).2.1.useTemplate =
      (greetingStep env k vars).2.useTemplate ∧
    (runAttempt env job line st vars k).2.1.message =
      (greetingStep env k vars).2.message := by
  rw [runAttempt]
  cases hbr : ((greetingStep env k vars).2.useTemplate && jsNatTruthy job.templateId) with
  | false =>
    simp only [hbr, Bool.false_eq_true, if_neg]
    cases env.sendResult k with
    | error e => exact ⟨rfl, rfl⟩
    | ok sentId? => exact ⟨rfl, rfl⟩
  | true =>
    simp only [hbr, if_pos]
    cases env.findTemplate (job.templateId.getD 0) with
    | none => exact ⟨rfl, rfl⟩
    | some tmpl =>
      cases env.sendResult k with
      | error e => exact ⟨rfl, rfl⟩
      | ok sentId? => exact ⟨rfl, rfl⟩

theorem runAttempt_failure (env : WorkerEnv) (job : JobData) (line : WLine)
    (st : WorkerState) (vars : AttemptVars) (k : Nat)
    (hsend : ∃ e, env.sendResult k = Except.error e)
    (H8 : jsNatTruthy job.templateId = true →
      (env.findTemplate (job.templateId.getD 0)).isSome = true) :
    ∃ e', (runAttempt env job line st vars k).2.2 = Except.error e' := by
  obtain ⟨e, he⟩ := hsend
  rw [runAttempt]
  cases hbr : ((greetingStep env k vars).2.useTemplate && jsNatTruthy job.templateId) with
  | false =>
    simp only [hbr, Bool.false_eq_true, if_neg, he]
    exact ⟨e, rfl⟩
  | true =>
    have hb := hbr
    rw [Bool.and_eq_true] at hb
    obtain ⟨tmpl, htm⟩ := Option.isSome_iff_exists.mp (H8 hb.2)
    simp only [hbr, if_pos, htm, he]
    exact ⟨e, rfl⟩

theorem runAttempt_success (env : WorkerEnv) (job : JobData) (line : WLine)
    (st : WorkerState) (vars : AttemptVars) (k : Nat) (mid? : Option String)
    (hsend : env.sendResult k = Except.ok mid?)
    (H8 : jsNatTruthy job.templateId = true →
      (env.findTemplate (job.templateId.getD 0)).isSome = true) :
    ∃ st', (runAttempt env job line st vars k).2.2 = Except.ok st' ∧
      ∀ c0, lookupCampaign st job.campaignId = some c0 →
        ∃ c', lookupCampaign st' job.campaignId = some c' ∧
          c'.response = !(greetingStep env k vars).1 ∧
          c'.dispatchedAt = some env.nowMs := by
  rw [runAttempt]
  cases hbr : ((greetingStep env k vars).2.useTemplate && jsNatTruthy job.templateId) with
  | false =>
    simp only [hbr, Bool.false_eq_true, if_neg, hsend]
    refine ⟨_, rfl, ?_⟩
    intro c0 hc0
    cases mid? with
    | none =>
      rw [lookupCampaign_updCampaign_self, lookupCampaign_addConversation, hc0]
      exact ⟨_, rfl, rfl, rfl⟩
    | some sid =>
      rw [lookupCampaign_updCampaign_self, lookupCampaign_addConversation,
        lookupCampaign_updCampaign_self, hc0]
      exact ⟨_, rfl, rfl, rfl⟩
  | true =>
    have hb := hbr
    rw [Bool.and_eq_true] at hb
    obtain ⟨tmpl, htm⟩ := Option.isSome_iff_exists.mp (H8 hb.2)
    simp only [hbr, if_pos, htm, hsend]
    refine ⟨_, rfl, ?_⟩
    intro c0 hc0
    cases mid? with
    | none =>
      rw [lookupCampaign_updCampaign_self, lookupCampaign_addConversation,
        lookupCampaign_addTemplateMessage, hc0]
      exact ⟨_, rfl, rfl, rfl⟩
    | some sid =>
      rw [lookupCampaign_updCampaign_self, lookupCampaign_addConversation,
        lookupCampaign_addTemplateMessage, lookupCampaign_updCampaign_self, hc0]
      exact ⟨_, rfl, rfl, rfl⟩

theorem attemptLoop_succ_ok (env : WorkerEnv) (job : JobData) (line : WLine)
    (fuel retries : Nat) (st : WorkerState) (vars : AttemptVars) (calls : List SendCall)
    (st' : WorkerState)
    (h : (runAttempt env job line st vars retries).2.2 = Except.ok st') :
    attemptLoop env job line (fuel + 1) retries st vars calls =
      (st', calls ++ (runAttempt env job line st vars retries).1, Except.ok ()) := by
  rw [attemptLoop_succ, h]

theorem attemptLoop_succ_err (env : WorkerEnv) (job : JobData) (line : WLine)
    (fuel retries : Nat) (st : WorkerState) (vars : AttemptVars) (calls : List SendCall)
    (e : String)
    (h : (runAttempt env job line st vars retries).2.2 = Except.error e) :
    attemptLoop env job line (fuel + 1) retries st vars calls =
      attemptLoop env job line fuel (retries + 1)
        (if 3 ≤ retries + 1 then
          (if (runAttempt env job line st vars retries).2.1.useTemplate &&
              jsNatTruthy job.templateId then
            addTemplateMessage
              (updCampaign st job.campaignId fun c =>
                { c with response := false, retryCount := retries + 1 })
              (failedTemplateRecord job e)
          else
            updCampaign st job.campaignId fun c =>
              { c with response := false, retryCount := retries + 1 })
        else st)
        (runAttempt env job line st vars retries).2.1
        (calls ++ (runAttempt env job line st vars retries).1) := by
  rw [attemptLoop_succ, h]

theorem attemptLoop_three_fail (env : WorkerEnv) (job : JobData) (line : WLine)
    (st : WorkerState) (vars : AttemptVars) (calls : List SendCall)
    (H8 : jsNatTruthy job.templateId = true →
      (env.findTemplate (job.templateId.getD 0)).isSome = true)
    (herr : ∀ k, k < 3 → ∃ e, env.sendResult k = Except.error e) :
    ∃ stF cl, attemptLoop env job line 3 0 st vars calls = (stF, cl, Except.ok ()) ∧
      lookupCampaign stF job.campaignId =
        (lookupCampaign st job.campaignId).map
          (fun c => { c with response := false, retryCount := 3 }) ∧
      ∃ e, stF.templateMessages =
        st.templateMessages ++
          (if (runAttempt env job line st
                ((runAttempt env job line st
                  ((runAttempt env job line st vars 0).2.1) 1).2.1) 2).2.1.useTemplate &&
              jsNatTruthy job.templateId then
            [failedTemplateRecord job e]
          else []) := by
  obtain ⟨e0, he0⟩ := runAttempt_failure env job line st vars 0 (herr 0 (by omega)) H8
  obtain ⟨e1, he1⟩ := runAttempt_failure env job line st
    ((runAttempt env job line st vars 0).2.1) 1 (herr 1 (by omega)) H8
  obtain ⟨e2, he2⟩ := runAttempt_failure env job line st
    ((runAttempt env job line st
      ((runAttempt env job line st vars 0).2.1) 1).2.1) 2 (herr 2 (by omega)) H8
  have heq : attemptLoop env job line 3 0 st vars calls =
      ((if (runAttempt env job line st
            ((runAttempt env job line st
              ((runAttempt env job line st vars 0).2.1) 1).2.1) 2).2.1.useTemplate &&
            jsNatTruthy job.templateId then
          addTemplateMessage
            (updCampaign st job.campaignId fun c =>
              { c with response := false, retryCount := 3 })
            (failedTemplateRecord job e2)
        else
          updCampaign st job.campaignId fun c =>
            { c with response := false, retryCount := 3 }),
        calls ++ (runAttempt env job line st vars 0).1 ++
          (runAttempt env job line st ((runAttempt env job line st vars 0).2.1) 1).1 ++
          (runAttempt env job line st ((runAttempt env job line st
            ((runAttempt env job line st vars 0).2.1) 1).2.1) 2).1,
        Except.ok ()) := by
    conv_lhs => rw [show (3 : Nat) = 0 + 1 + 1 + 1 from rfl]
    rw [attemptLoop_succ_err env job line (0 + 1 + 1) 0 st vars calls e0 he0,
      if_neg (show ¬ (3 ≤ 0 + 1) by omega),
      attemptLoop_succ_err env job line (0 + 1) (0 + 1) st _ _ e1 he1,
      if_neg (show ¬ (3 ≤ 0 + 1 + 1) by omega),
      attemptLoop_succ_err env job line 0 (0 + 1 + 1) st _ _ e2 he2,
      if_pos (show 3 ≤ 0 + 1 + 1 + 1 by omega),
      attemptLoop_zero]
  refine ⟨_, _, heq, ?_, ?_⟩
  · cases hb : ((runAttempt env job line st
        ((runAttempt env job line st
          ((runAttempt env job line st vars 0).2.1) 1).2.1) 2).2.1.useTemplate &&
        jsNatTruthy job.templateId) with
    | true =>
      rw [if_pos rfl, lookupCampaign_addTemplateMessage, lookupCampaign_updCampaign_self]
    | false =>
      rw [if_neg (by simp), lookupCampaign_updCampaign_self]
  · refine ⟨e2, ?_⟩
    cases hb : ((runAttempt env job line st
        ((runAttempt env job line st
          ((runAttempt env job line st vars 0).2.1) 1).2.1) 2).2.1.useTemplate &&
        jsNatTruthy job.templateId) with
    | true =>
      rw [if_pos rfl, templateMessages_addTemplateMessage, templateMessages_updCampaign]
      simp
    | false =>
      rw [if_neg (by simp), templateMessages_updCampaign]
      simp

theorem attemptVarsAt_succ (env : WorkerEnv) (job : JobData) (line : WLine)
    (st : WorkerState) (k : Nat) :
    attemptVarsAt env job line st (k + 1) =
      (runAttempt env job line st (attemptVarsAt env job line st k) k).2.1 := rfl

theorem attemptVarsAt_plain (env : WorkerEnv) (job : JobData) (line : WLine)
    (st : WorkerState)
    (hplain : ∀ m, job.message = some m → trimStartsWithBrace m = false) :
    ∀ k, (attemptVarsAt env job line st k).useTemplate = job.useTemplate ∧
      (attemptVarsAt env job line st k).message = job.message := by
  intro k
  induction k with
  | zero => exact ⟨rfl, rfl⟩
  | succ k ih =>
    have hplak : ∀ m, (attemptVarsAt env job line st k).message = some m →
        trimStartsWithBrace m = false := by
      intro m hm
      rw [ih.2] at hm
      exact hplain m hm
    have hg : greetingStep env k (attemptVarsAt env job line st k) =
        (false, attemptVarsAt env job line st k) :=
      greetingStep_plain env k _ hplak
    constructor
    · rw [attemptVarsAt_succ, (runAttempt_vars env job line st _ k).1, hg, ih.1]
    · rw [attemptVarsAt_succ, (runAttempt_vars env job line st _ k).2, hg, ih.2]

set_option maxRecDepth 4000 in
/-- **C6 counterexample** — a greeting-wrapper job that requested template
mode (`useTemplate = true`, truthy `templateId`, the template row present)
whose three send attempts all fail creates *no* FAILED template-message
record: the greeting flow forced `useTemplate` off at the first attempt,
so the catch's `useTemplate && templateId` guard is false.  This refutes
"a separate failure record with the error message is created when template
mode is in use" as stated.  (The record is still marked `response = false`
with `retryCount = 3`, and the worker exits normally.) -/
theorem handleSendMessage_greeting_no_failure_record :
    jobWrapW.useTemplate = true ∧
    jsNatTruthy jobWrapW.templateId = true ∧
    (envFailW.findTemplate (jobWrapW.templateId.getD 0)).isSome = true ∧
    envFailW.sendResult 0 = Except.error "gateway down" ∧
    envFailW.sendResult 1 = Except.error "gateway down" ∧
    envFailW.sendResult 2 = Except.error "gateway down" ∧
    (handleSendMessage envFailW stActiveW jobWrapW).2.2 = Except.ok () ∧
    (handleSendMessage envFailW stActiveW jobWrapW).1.templateMessages = [] := by
  exact ⟨rfl, rfl, rfl, rfl, rfl, rfl, rfl, rfl⟩

/-- **C6 (amended)** — for a job that passes validation (campaign present
and not paused, recipient not blocklisted, line active, rate limit clear,
gateway credentials found, and — when template mode is on — the template
row present): if attempt `k` is the first send attempt to succeed
(`k < 3`), the campaign record is updated with
`response = NOT isGreetingFlow` as computed in that attempt and
`dispatchedAt` set to the current time; if all 3 attempts fail, the worker
exits normally with the record updated to `response = false` and
`retryCount = 3` persisted, and a separate FAILED template-message record
carrying the error message is created exactly when template mode is still
in effect after the attempts — for a plain (non-greeting-wrapper) message
that is exactly the job's requested template mode, while the greeting flow
forces template mode off. -/
theorem handleSendMessage_record_outcome (env : WorkerEnv) (st : WorkerState)
    (job : JobData) (c0 : WCampaign) (line : WLine) (evo : WEvolution)
    (H1 : lookupCampaign st job.campaignId = some c0)
    (H2 : startsWithStr (c0.messageId.getD "") "PAUSED" = false)
    (H3 : env.isBlocked job.contactPhone = false)
    (H4 : env.findLine job.lineId = some line)
    (H5 : line.lineStatus = "active")
    (H6 : env.canSend = true)
    (H7 : env.findEvolution line.evolutionName = some evo)
    (H8 : jsNatTruthy job.templateId = true →
      (env.findTemplate (job.templateId.getD 0)).isSome = true) :
    (∀ k, k < 3 →
      (∀ j, j < k → ∃ e, env.sendResult j = Except.error e) →
      ∀ mid?, env.sendResult k = Except.ok mid? →
      (handleSendMessage env st job).2.2 = Except.ok () ∧
      ∃ c', lookupCampaign (handleSendMessage env st job).1 job.campaignId = some c' ∧
        c'.response = !(greetingStep env k (attemptVarsAt env job line st k)).1 ∧
        c'.dispatchedAt = some env.nowMs) ∧
    ((∀ k, k < 3 → ∃ e, env.sendResult k = Except.error e) →
      (handleSendMessage env st job).2.2 = Except.ok () ∧
      (∃ c', lookupCampaign (handleSendMessage env st job).1 job.campaignId = some c' ∧
        c'.response = false ∧ c'.retryCount = 3) ∧
      (∃ e, (handleSendMessage env st job).1.templateMessages =
        st.templateMessages ++
          (if (attemptVarsAt env job line st 3).useTemplate &&
              jsNatTruthy job.templateId then
            [failedTemplateRecord job e]
          else [])) ∧
      ((∀ m, job.message = some m → trimStartsWithBrace m = false) →
        (attemptVarsAt env job line st 3).useTemplate = job.useTemplate)) := by
  have hvalid := handleSendMessage_valid env st job c0 line evo H1 H2 H3 H4 H5 H6 H7
  constructor
  · intro k hk hprev mid? hsk
    match k, hk with
    | 0, _ =>
      obtain ⟨st', hok, hc⟩ :=
        runAttempt_success env job line st (initialVars job) 0 mid? hsk H8
      have heqA : handleSendMessage env st job =
          (st', [] ++ (runAttempt env job line st (initialVars job) 0).1,
            Except.ok ()) := by
        rw [hvalid]
        conv_lhs => rw [show (3 : Nat) = 2 + 1 from rfl]
        exact attemptLoop_succ_ok env job line 2 0 st (initialVars job) [] st' hok
      rw [heqA]
      exact ⟨rfl, hc c0 H1⟩
    | 1, _ =>
      obtain ⟨e0, he0⟩ := runAttempt_failure env job line st (initialVars job) 0
        (hprev 0 (by omega)) H8
      obtain ⟨st', hok, hc⟩ := runAttempt_success env job line st
        ((runAttempt env job line st (initialVars job) 0).2.1) 1 mid? hsk H8
      have heqA : handleSendMessage env st job =
          (st', ([] ++ (runAttempt env job line st (initialVars job) 0).1) ++
            (runAttempt env job line st
              ((runAttempt env job line st (initialVars job) 0).2.1) 1).1,
            Except.ok ()) := by
        rw [hvalid]
        conv_lhs => rw [show (3 : Nat) = 0 + 1 + 1 + 1 from rfl]
        rw [attemptLoop_succ_err env job line (0 + 1 + 1) 0 st (initialVars job) [] e0 he0,
          if_neg (show ¬ (3 ≤ 0 + 1) by omega),
          attemptLoop_succ_ok env job line (0 + 1) (0 + 1) st _ _ st' hok]
      rw [heqA]
      exact ⟨rfl, hc c0 H1⟩
    | 2, _ =>
      obtain ⟨e0, he0⟩ := runAttempt_failure env job line st (initialVars job) 0
        (hprev 0 (by omega)) H8
      obtain ⟨e1, he1⟩ := runAttempt_failure env job line st
        ((runAttempt env job line st (initialVars job) 0).2.1) 1 (hprev 1 (by omega)) H8
      obtain ⟨st', hok, hc⟩ := runAttempt_success env job line st
        ((runAttempt env job line st
          ((runAttempt env job line st (initialVars job) 0).2.1) 1).2.1) 2 mid? hsk H8
      have heqA : handleSendMessage env st job =
          (st', (([] ++ (runAttempt env job line st (initialVars job) 0).1) ++
            (runAttempt env job line st
              ((runAttempt env job line st (initialVars job) 0).2.1) 1).1) ++
            (runAttempt env job line st
              ((runAttempt env job line st
                ((runAttempt env job line st (initialVars job) 0).2.1) 1).2.1) 2).1,
            Except.ok ()) := by
        rw [hvalid]
        conv_lhs => rw [show (3 : Nat) = 0 + 1 + 1 + 1 from rfl]
        rw [attemptLoop_succ_err env job line (0 + 1 + 1) 0 st (initialVars job) [] e0 he0,
          if_neg (show ¬ (3 ≤ 0 + 1) by omega),
          attemptLoop_succ_err env job line (0 + 1) (0 + 1) st _ _ e1 he1,
          if_neg (show ¬ (3 ≤ 0 + 1 + 1) by omega),
          attemptLoop_succ_ok env job line 0 (0 + 1 + 1) st _ _ st' hok]
      rw [heqA]
      exact ⟨rfl, hc c0 H1⟩
  · intro herr
    obtain ⟨stF, cl, heqB, hlook, htm⟩ :=
      attemptLoop_three_fail env job line st (initialVars job) [] H8 herr
    have heqB' : handleSendMessage env st job = (stF, cl, Except.ok ()) := by
      rw [hvalid, heqB]
    rw [heqB']
    refine ⟨rfl, ?_, ?_, ?_⟩
    · have hc' : lookupCampaign stF job.campaignId =
          some { c0 with response := false, retryCount := 3 } := by
        rw [hlook, H1]
        rfl
      exact ⟨_, hc', rfl, rfl⟩
    · exact htm
    · intro hplain
      exact (attemptVarsAt_plain env job line st hplain 3).1

/-- **C6 witness** — a retried success: the first send fails, the second
succeeds, and the record ends with `response = true` (the plain message is
not a greeting wrapper) and a stamped dispatch time. -/
theorem handleSendMessage_record_outcome_witness :
    (handleSendMessage envRetryW stActiveW jobW).2.2 = Except.ok () ∧
      ∃ c', lookupCampaign (handleSendMessage envRetryW stActiveW jobW).1 1 = some c' ∧
        c'.response = !(greetingStep envRetryW 1 (attemptVarsAt envRetryW jobW lineW stActiveW 1)).1 ∧
        c'.dispatchedAt = some 0 := by
  have h := handleSendMessage_record_outcome envRetryW stActiveW jobW
    ⟨some "SCHEDULED:1715000000000", false, 0, none⟩ lineW ⟨"http://evo", "key"⟩
    rfl (by decide) rfl rfl rfl rfl rfl (by decide)
  exact h.1 1 (by omega)
    (fun j hj => ⟨"gateway timeout", by
      obtain rfl : j = 0 := by omega
      rfl⟩)
    (some "MID2") rfl

end Camp
